import Mathlib

/-!
# Verification of the claude-tutor request broker (`ClaudeBridge`)

Shallow embedding of the serialized external-process request broker
implemented in `src/tutor-server/src/services/usage-limiter.ts` (the
`ClaudeBridge` class with its `CircuitBreaker`), together with the
stream-output parser and the memory-marker stripping implemented in
`memory-manager.ts`.

Conventions:
- JavaScript `Date.now()` timestamps are modelled as `Int` milliseconds.
- JavaScript string falsiness (`!s` is true for `undefined` and `""`)
  is modelled explicitly on `Option String`.
- The queue/worker behaviour of `chat`/`processQueue` is modelled as a
  labelled transition system; JavaScript's single-threaded event loop
  means each `.then` continuation runs atomically, which the step
  function mirrors.
-/

namespace ClaudeTutor

/-! ## Circuit breaker (usage-limiter.ts lines 108-157) -/

-- const CIRCUIT_FAILURE_THRESHOLD = 3;
def CIRCUIT_FAILURE_THRESHOLD : Nat := 3
-- const CIRCUIT_RESET_TIMEOUT_MS = 30000; // 30 seconds
def CIRCUIT_RESET_TIMEOUT_MS : Int := 30000

-- type CircuitState = 'CLOSED' | 'OPEN' | 'HALF_OPEN';
inductive CircuitState
  | CLOSED
  | OPEN
  | HALF_OPEN
deriving DecidableEq, Repr

structure CircuitBreaker where
  state : CircuitState
  failureCount : Nat
  lastFailureTime : Int
deriving DecidableEq, Repr

-- field initializers: state = 'CLOSED', failureCount = 0, lastFailureTime = 0
def CircuitBreaker.initial : CircuitBreaker :=
  { state := .CLOSED, failureCount := 0, lastFailureTime := 0 }

/-- `CircuitBreaker.canExecute()`; `now` is the value of `Date.now()` at the
call.  Returns the boolean result together with the updated breaker (the
OPEN → HALF_OPEN transition mutates `this.state`). -/
def CircuitBreaker.canExecute (now : Int) (cb : CircuitBreaker) :
    Bool × CircuitBreaker :=
  match cb.state with
  | .CLOSED => (true, cb)
  | .OPEN =>
    if now - cb.lastFailureTime ≥ CIRCUIT_RESET_TIMEOUT_MS then
      (true, { cb with state := .HALF_OPEN })
    else
      (false, cb)
  | .HALF_OPEN =>
    -- HALF_OPEN: allow one test request
    (true, cb)

/-- `CircuitBreaker.recordSuccess()`. -/
def CircuitBreaker.recordSuccess (cb : CircuitBreaker) : CircuitBreaker :=
  { cb with failureCount := 0, state := .CLOSED }

/-- `CircuitBreaker.recordFailure()`; `now` is `Date.now()` at the call. -/
def CircuitBreaker.recordFailure (now : Int) (cb : CircuitBreaker) :
    CircuitBreaker :=
  let cb1 : CircuitBreaker :=
    { cb with failureCount := cb.failureCount + 1, lastFailureTime := now }
  if cb1.failureCount ≥ CIRCUIT_FAILURE_THRESHOLD ∨ cb.state = .HALF_OPEN then
    { cb1 with state := .OPEN }
  else
    cb1

end ClaudeTutor

namespace ClaudeTutor

/-! ## Claims C2 and C3: circuit-breaker state machine -/

/-- The breaker after three consecutive `recordFailure()` calls at times
`t1`, `t2`, `t3`, starting Closed with failure counter 0 (and arbitrary
initial timestamp `t0`), with no intervening `recordSuccess()`. -/
def threeFailures (t0 t1 t2 t3 : Int) : CircuitBreaker :=
  CircuitBreaker.recordFailure t3
    (CircuitBreaker.recordFailure t2
      (CircuitBreaker.recordFailure t1
        { state := .CLOSED, failureCount := 0, lastFailureTime := t0 }))

/-- **C2.** Starting from the Closed state with failure counter 0, after
exactly 3 consecutive `recordFailure()` calls (at times `t1 ≤ t2 ≤ t3`, no
intervening `recordSuccess()`), the breaker is Open with the failure
timestamp `t3`; every subsequent `canExecute()` call made strictly less
than 30 seconds after `t3` returns `false` and leaves the breaker
unchanged (so all such calls return `false`). -/
theorem circuit_opens_after_three_failures
    (t0 t1 t2 t3 t : Int) (h : t - t3 < 30000) :
    (threeFailures t0 t1 t2 t3).state = .OPEN ∧
    (threeFailures t0 t1 t2 t3).lastFailureTime = t3 ∧
    (threeFailures t0 t1 t2 t3).failureCount = 3 ∧
    CircuitBreaker.canExecute t (threeFailures t0 t1 t2 t3) =
      (false, threeFailures t0 t1 t2 t3) := by
  have hcb : threeFailures t0 t1 t2 t3 =
      { state := .OPEN, failureCount := 3, lastFailureTime := t3 } := by
    simp [threeFailures, CircuitBreaker.recordFailure, CIRCUIT_FAILURE_THRESHOLD]
  rw [hcb]
  refine ⟨rfl, rfl, rfl, ?_⟩
  simp [CircuitBreaker.canExecute, CIRCUIT_RESET_TIMEOUT_MS]
  omega

/-- Concrete witness for `circuit_opens_after_three_failures`:
three failures at times 0, 10, 20 and a query at time 30019. -/
theorem circuit_opens_after_three_failures_witness :
    (30019 : Int) - 20 < 30000 ∧
    ((threeFailures 0 0 10 20).state = .OPEN ∧
      (threeFailures 0 0 10 20).lastFailureTime = 20 ∧
      (threeFailures 0 0 10 20).failureCount = 3 ∧
      CircuitBreaker.canExecute 30019 (threeFailures 0 0 10 20) =
        (false, threeFailures 0 0 10 20)) :=
  ⟨by decide, circuit_opens_after_three_failures 0 0 10 20 30019 (by decide)⟩

/-- **C3 (amended).** When the breaker is Open and at least 30 seconds
have elapsed since the last failure, `canExecute()` returns `true` and
transitions the state to Half-Open; the Open → Half-Open transition
happens only on that one call, but every further `canExecute()` call
made while the breaker remains Half-Open also returns `true` with the
state unchanged (`canExecute` itself does not enforce a single trial —
see `half_open_second_call_also_true`).  From the Half-Open state,
`recordSuccess()` yields Closed with failure counter 0, and
`recordFailure()` at any time `t2` yields Open with `lastFailureTime`
refreshed to `t2` even when the incremented failure counter is below the
threshold of 3. -/
theorem circuit_half_open_probe
    (cb : CircuitBreaker) (t : Int)
    (hstate : cb.state = .OPEN)
    (helapsed : t - cb.lastFailureTime ≥ 30000) :
    (cb.canExecute t).1 = true ∧
      (cb.canExecute t).2.state = .HALF_OPEN ∧
      (∀ t3 : Int,
        (cb.canExecute t).2.canExecute t3 = (true, (cb.canExecute t).2)) ∧
      ((cb.canExecute t).2.recordSuccess).state = .CLOSED ∧
      ((cb.canExecute t).2.recordSuccess).failureCount = 0 ∧
      ∀ t2 : Int,
        ((cb.canExecute t).2.recordFailure t2).state = .OPEN ∧
        ((cb.canExecute t).2.recordFailure t2).lastFailureTime = t2 := by
  have hexec : cb.canExecute t = (true, { cb with state := .HALF_OPEN }) := by
    simp [CircuitBreaker.canExecute, hstate, CIRCUIT_RESET_TIMEOUT_MS, helapsed]
  rw [hexec]
  refine ⟨rfl, rfl, fun t3 => rfl, rfl, rfl, fun t2 => ⟨?_, ?_⟩⟩ <;>
    simp [CircuitBreaker.recordFailure]

/-- Concrete witness for `circuit_half_open_probe`: a breaker that tripped
Open with 3 failures at time 100, probed at time 30100; the Half-Open
failure is recorded at time 30200 with counter 3 + 1 but the theorem also
covers counters below the threshold (the `recordFailure` clause holds for
the Half-Open state regardless of the counter). -/
theorem circuit_half_open_probe_witness :
    (({ state := .OPEN, failureCount := 3, lastFailureTime := 100 } :
        CircuitBreaker).state = CircuitState.OPEN) ∧
    ((30100 : Int) - 100 ≥ 30000) ∧
    (let cb : CircuitBreaker :=
      { state := .OPEN, failureCount := 3, lastFailureTime := 100 }
     (cb.canExecute 30100).1 = true ∧
       (cb.canExecute 30100).2.state = .HALF_OPEN ∧
       ((cb.canExecute 30100).2.canExecute 30150 =
         (true, (cb.canExecute 30100).2)) ∧
       ((cb.canExecute 30100).2.recordSuccess).state = .CLOSED ∧
       ((cb.canExecute 30100).2.recordSuccess).failureCount = 0 ∧
       ((cb.canExecute 30100).2.recordFailure 30200).state = .OPEN ∧
       ((cb.canExecute 30100).2.recordFailure 30200).lastFailureTime = 30200) := by
  refine ⟨rfl, by decide, ?_⟩
  have h := circuit_half_open_probe
    { state := .OPEN, failureCount := 3, lastFailureTime := 100 } 30100 rfl (by decide)
  exact ⟨h.1, h.2.1, h.2.2.1 30150, h.2.2.2.1, h.2.2.2.2.1,
    (h.2.2.2.2.2 30200).1, (h.2.2.2.2.2 30200).2⟩

/-- Counterexample to C3 as stated: after the Open → Half-Open probe
call, `canExecute()` does **not** return `true` "exactly once" — a
second call while Half-Open returns `true` again (with no further
transition).  Here the breaker tripped at time 0 and is probed at
30000; a second `canExecute` at 30001 also returns `true`. -/
theorem half_open_second_call_also_true :
    CircuitBreaker.canExecute 30000
        { state := .OPEN, failureCount := 3, lastFailureTime := 0 } =
      (true, { state := .HALF_OPEN, failureCount := 3, lastFailureTime := 0 }) ∧
    CircuitBreaker.canExecute 30001
        { state := .HALF_OPEN, failureCount := 3, lastFailureTime := 0 } =
      (true, { state := .HALF_OPEN, failureCount := 3, lastFailureTime := 0 }) := by
  exact ⟨by decide, by decide⟩

end ClaudeTutor

namespace ClaudeTutor

/-! ## Claim C1: FIFO single-worker queue (`chat` / `processQueue`)

`chat()` pushes a request onto `this.queue` and synchronously calls
`processQueue()`.  `processQueue()` returns at once when `this.processing`
is set or the queue is empty; otherwise it sets `processing`, shifts the
head request, awaits `executeWithRetry`, resolves/rejects that request's
promise, clears `processing` and calls itself again.  JavaScript's
single-threaded event loop makes each of these segments atomic, so the
broker is a labelled transition system with two events: a `chat()` call
(enqueue + the synchronous `processQueue` attempt) and the completion of
the in-flight `executeWithRetry` (resolve + the tail `processQueue`
call).  Requests are identified by arrival number: request `n` is the
`n`-th `chat()` call. -/

structure BrokerLts where
  /-- `this.queue`, as arrival numbers. -/
  queue : List Nat
  /-- `this.processing`. -/
  processing : Bool
  /-- the request currently being executed by the worker, if any -/
  inFlight : Option Nat
  /-- requests whose promise has been settled, in settlement order -/
  resolved : List Nat
  /-- number of `chat()` calls so far (next arrival number) -/
  nextId : Nat
deriving DecidableEq, Repr

def BrokerLts.initial : BrokerLts :=
  { queue := [], processing := false, inFlight := none, resolved := [], nextId := 0 }

/-- The synchronous front of `processQueue()`: return if already
`processing` or the queue is empty, else set `processing` and shift the
head request into execution. -/
def BrokerLts.tryDequeue (s : BrokerLts) : BrokerLts :=
  if s.processing then s
  else
    match s.queue with
    | [] => s
    | r :: rest => { s with queue := rest, processing := true, inFlight := some r }

inductive BrokerEv
  | enqueue
  | finish
deriving DecidableEq, Repr

/-- One atomic segment of the broker: `enqueue` is a `chat()` call
(push + synchronous `processQueue`), `finish` is the in-flight
`executeWithRetry` settling (resolve/reject the promise, clear
`processing`, tail call to `processQueue`).  A `finish` with no request
in flight cannot occur and is a no-op. -/
def BrokerLts.step (s : BrokerLts) : BrokerEv → BrokerLts
  | .enqueue =>
    BrokerLts.tryDequeue
      { s with queue := s.queue ++ [s.nextId], nextId := s.nextId + 1 }
  | .finish =>
    match s.inFlight with
    | none => s
    | some r =>
      BrokerLts.tryDequeue
        { s with resolved := s.resolved ++ [r], inFlight := none,
                 processing := false }

def BrokerLts.run (evs : List BrokerEv) : BrokerLts :=
  evs.foldl BrokerLts.step BrokerLts.initial

theorem BrokerLts.inv_step (s : BrokerLts) (e : BrokerEv)
    (h1 : s.processing = s.inFlight.isSome)
    (h2 : s.resolved ++ s.inFlight.toList ++ s.queue = List.range s.nextId) :
    ((s.step e).processing = (s.step e).inFlight.isSome) ∧
    ((s.step e).resolved ++ (s.step e).inFlight.toList ++ (s.step e).queue
      = List.range (s.step e).nextId) := by
  cases e with
  | enqueue =>
    by_cases hp : s.processing = true
    · have hs : s.step .enqueue =
          { s with queue := s.queue ++ [s.nextId], nextId := s.nextId + 1 } := by
        simp [BrokerLts.step, BrokerLts.tryDequeue, hp]
      rw [hs]
      refine ⟨h1, ?_⟩
      show s.resolved ++ s.inFlight.toList ++ (s.queue ++ [s.nextId])
        = List.range (s.nextId + 1)
      rw [List.range_succ, ← h2]
      simp [List.append_assoc]
    · have hif : s.inFlight = none := by
        cases hifc : s.inFlight with
        | none => rfl
        | some r => rw [hifc] at h1; simp at h1; exact absurd h1 hp
      cases hq : s.queue with
      | nil =>
        have hs : s.step .enqueue =
            { s with queue := [], processing := true, inFlight := some s.nextId,
                     nextId := s.nextId + 1 } := by
          simp [BrokerLts.step, BrokerLts.tryDequeue, hp, hq]
        have hres : s.resolved = List.range s.nextId := by
          simpa [hif, hq] using h2
        rw [hs]
        refine ⟨rfl, ?_⟩
        show s.resolved ++ [s.nextId] ++ [] = List.range (s.nextId + 1)
        rw [List.range_succ, hres]
        simp
      | cons q rest =>
        have hs : s.step .enqueue =
            { s with queue := rest ++ [s.nextId], processing := true,
                     inFlight := some q, nextId := s.nextId + 1 } := by
          simp [BrokerLts.step, BrokerLts.tryDequeue, hp, hq]
        have hres : s.resolved ++ (q :: rest) = List.range s.nextId := by
          simpa [hif, hq] using h2
        rw [hs]
        refine ⟨rfl, ?_⟩
        show s.resolved ++ [q] ++ (rest ++ [s.nextId]) = List.range (s.nextId + 1)
        rw [List.range_succ, ← hres]
        simp
  | finish =>
    cases hif : s.inFlight with
    | none =>
      have hs : s.step .finish = s := by simp [BrokerLts.step, hif]
      rw [hs]; exact ⟨h1, h2⟩
    | some r =>
      cases hq : s.queue with
      | nil =>
        have hs : s.step .finish =
            { s with resolved := s.resolved ++ [r], inFlight := none,
                     processing := false } := by
          simp [BrokerLts.step, BrokerLts.tryDequeue, hif, hq]
        have hres : s.resolved ++ [r] = List.range s.nextId := by
          simpa [hif, hq] using h2
        rw [hs]
        refine ⟨rfl, ?_⟩
        simpa [hq] using hres
      | cons q rest =>
        have hs : s.step .finish =
            { s with resolved := s.resolved ++ [r], inFlight := some q,
                     processing := true, queue := rest } := by
          simp [BrokerLts.step, BrokerLts.tryDequeue, hif, hq]
        have hres : s.resolved ++ [r] ++ (q :: rest) = List.range s.nextId := by
          simpa [hif, hq, List.append_assoc] using h2
        rw [hs]
        refine ⟨rfl, ?_⟩
        show (s.resolved ++ [r]) ++ [q] ++ rest = List.range s.nextId
        rw [← hres]
        simp

theorem BrokerLts.inv_run (evs : List BrokerEv) :
    ((BrokerLts.run evs).processing = (BrokerLts.run evs).inFlight.isSome) ∧
    ((BrokerLts.run evs).resolved ++ (BrokerLts.run evs).inFlight.toList
        ++ (BrokerLts.run evs).queue = List.range (BrokerLts.run evs).nextId) := by
  induction evs using List.reverseRecOn with
  | nil => exact ⟨rfl, rfl⟩
  | append_singleton evs e ih =>
    rw [BrokerLts.run, List.foldl_append] at *
    exact BrokerLts.inv_step _ e ih.1 ih.2

/-- A list that is a left factor of `List.range n` is itself an initial
run `0, 1, …`. -/
theorem left_factor_of_range {l1 l2 : List Nat} {n : Nat}
    (h : l1 ++ l2 = List.range n) : l1 = List.range l1.length := by
  have hlen : l1.length ≤ n := by
    have := congrArg List.length h
    simp at this
    omega
  have htake : (List.range n).take l1.length = l1 := by
    rw [← h, List.take_left]
  conv_lhs => rw [← htake]
  rw [List.take_range, Nat.min_eq_left hlen]

/-- **C1.** For every sequence of `chat()` submissions and invocation
completions, the broker state reached satisfies: (i) the `processing`
flag is set exactly while a request is in flight, and the in-flight slot
is a single `Option` — at most one backend invocation (one `processQueue`
worker iteration) runs at a time, and no new one is started while it is
set; (ii) the settled requests, the in-flight request and the queued
requests, in that order, are exactly the arrival order `0, 1, …`; in
particular (iii) promises are settled in exactly the FIFO order in which
the requests were enqueued. -/
theorem broker_single_flight_fifo (evs : List BrokerEv) :
    ((BrokerLts.run evs).processing = (BrokerLts.run evs).inFlight.isSome) ∧
    ((BrokerLts.run evs).resolved ++ (BrokerLts.run evs).inFlight.toList
        ++ (BrokerLts.run evs).queue = List.range (BrokerLts.run evs).nextId) ∧
    ((BrokerLts.run evs).resolved
        = List.range (BrokerLts.run evs).resolved.length) := by
  obtain ⟨h1, h2⟩ := BrokerLts.inv_run evs
  have h2a : (BrokerLts.run evs).resolved ++
      ((BrokerLts.run evs).inFlight.toList ++ (BrokerLts.run evs).queue) =
      List.range (BrokerLts.run evs).nextId := by
    simpa [List.append_assoc] using h2
  exact ⟨h1, h2, left_factor_of_range h2a⟩

end ClaudeTutor

namespace ClaudeTutor

/-! ## String helpers

`String.prototype.includes` / `toLowerCase` are modelled on the
character lists underlying Lean strings, so that every definition
evaluates by kernel reduction. -/

/-- `pat` occurs at the start of `l` (helper for substring search). -/
def startsWithChars : List Char → List Char → Bool
  | [], _ => true
  | _ :: _, [] => false
  | p :: ps, c :: cs => p == c && startsWithChars ps cs

/-- `pat` occurs somewhere in `l`: JavaScript `l.includes(pat)`. -/
def hasSub (pat : List Char) : List Char → Bool
  | [] => startsWithChars pat []
  | c :: rest => startsWithChars pat (c :: rest) || hasSub pat rest

/-- JavaScript `s.toLowerCase()` (ASCII case mapping suffices for the
error messages the broker matches on). -/
def toLowerStr (s : String) : String := ⟨s.data.map Char.toLower⟩

/-- JavaScript `s.includes(pat)`. -/
def strIncludes (s pat : String) : Bool := hasSub pat.data s.data

end ClaudeTutor

namespace ClaudeTutor

/-! ## Retry policy (usage-limiter.ts lines 266-307) -/

-- interface ChatResponse { text; sessionId; isError }
structure ChatResponse where
  text : String
  sessionId : String
  isError : Bool
deriving DecidableEq, Repr

-- const MAX_RETRIES = 2;
def MAX_RETRIES : Nat := 2
-- const RETRY_DELAY_MS = 1000;
def RETRY_DELAY_MS : Nat := 1000

/-- `ClaudeBridge.isRetryableError(error)`. -/
def isRetryableError (e : String) : Bool :=
  let message := toLowerStr e
  strIncludes message "timeout" || strIncludes message "econnreset" ||
    strIncludes message "spawn" || strIncludes message "enoent"

/-- Outcome of one `executeQuery` attempt: resolution or rejection. -/
inductive AttemptOutcome
  | ok (resp : ChatResponse)
  | err (msg : String)
deriving DecidableEq, Repr

/-- Observable effects of one `executeWithRetry(request)` call: the
settled result, the number of `executeQuery` attempts made, the number
of `circuitBreaker.recordSuccess()` / `recordFailure()` calls, and the
`delay(...)` waits performed, in order. -/
structure RetryResult where
  result : Except String ChatResponse
  attempts : Nat
  successes : Nat
  failures : Nat
  delays : List Nat
deriving Repr

/-- The `for (let attempt = 0; attempt <= MAX_RETRIES; attempt++)` loop
of `executeWithRetry`, with the outcome of the `attempt`-th
`executeQuery` call given by the oracle `outcomes`.  `fuel` is the
number of loop iterations still permitted (`MAX_RETRIES + 1 - attempt`);
the `fuel = 0` case is the code after the loop (lines 305-306:
`recordFailure(); throw lastError`), which is in fact unreachable. -/
def retryLoop (outcomes : Nat → AttemptOutcome) :
    Nat → Nat → String → RetryResult
  | 0, _, lastError =>
    { result := .error lastError, attempts := 0, successes := 0,
      failures := 1, delays := [] }
  | fuel + 1, attempt, _lastError =>
    match outcomes attempt with
    | .ok resp =>
      -- const result = await this.executeQuery(request);
      -- this.circuitBreaker.recordSuccess(); return result;
      { result := .ok resp, attempts := 1, successes := 1, failures := 0,
        delays := [] }
    | .err e =>
      -- lastError = error as Error;
      if attempt < MAX_RETRIES ∧ isRetryableError e = true then
        -- await this.delay(RETRY_DELAY_MS); continue;
        let r := retryLoop outcomes fuel (attempt + 1) e
        { r with attempts := r.attempts + 1, delays := RETRY_DELAY_MS :: r.delays }
      else
        -- this.circuitBreaker.recordFailure(); throw lastError;
        { result := .error e, attempts := 1, successes := 0, failures := 1,
          delays := [] }

/-- `ClaudeBridge.executeWithRetry(request)`; `lastError` starts as
`new Error('Unknown error')`. -/
def executeWithRetry (outcomes : Nat → AttemptOutcome) : RetryResult :=
  retryLoop outcomes (MAX_RETRIES + 1) 0 "Unknown error"

/-- **C5.** For every dequeued request (every oracle of attempt
outcomes), `executeWithRetry` makes between 1 and 3 `executeQuery`
attempts; a fixed 1-second delay precedes each retry (so there are
`attempts - 1` delays); every attempt that was followed by a retry
failed with an error classified retryable by `isRetryableError` (hence a
non-retryable error ends the loop after its own attempt, with no further
attempts); if some attempt succeeds its result is returned with exactly
one `recordSuccess` and no `recordFailure`; if the call throws, the
thrown error is the last attempt's error and exactly one `recordFailure`
and no `recordSuccess` is recorded. -/
theorem retry_policy (outcomes : Nat → AttemptOutcome) :
    let r := executeWithRetry outcomes
    1 ≤ r.attempts ∧ r.attempts ≤ MAX_RETRIES + 1 ∧
    r.delays = List.replicate (r.attempts - 1) RETRY_DELAY_MS ∧
    (∀ i, i + 1 < r.attempts →
      ∃ e, outcomes i = .err e ∧ isRetryableError e = true) ∧
    (∀ resp, r.result = .ok resp →
      outcomes (r.attempts - 1) = .ok resp ∧ r.successes = 1 ∧ r.failures = 0) ∧
    (∀ e, r.result = .error e →
      outcomes (r.attempts - 1) = .err e ∧ r.successes = 0 ∧ r.failures = 1) := by
  intro r
  rcases h0 : outcomes 0 with resp0 | e0
  · have hr : r =
        { result := .ok resp0, attempts := 1, successes := 1,
          failures := 0, delays := [] } := by
      simp [r, executeWithRetry, retryLoop, h0, MAX_RETRIES]
    rw [hr]
    refine ⟨by simp, by simp [MAX_RETRIES], rfl, fun i hi => by simp at hi, ?_, ?_⟩
    · intro resp h
      injection h with h
      exact ⟨h ▸ h0, rfl, rfl⟩
    · intro e h
      simp at h
  · by_cases hret0 : isRetryableError e0 = true
    · rcases h1 : outcomes 1 with resp1 | e1
      · have hr : r =
            { result := .ok resp1, attempts := 2, successes := 1,
              failures := 0, delays := [RETRY_DELAY_MS] } := by
          simp [r, executeWithRetry, retryLoop, h0, h1, hret0, MAX_RETRIES]
        rw [hr]
        refine ⟨by simp, by simp [MAX_RETRIES], rfl, ?_, ?_, ?_⟩
        · intro i hi
          simp at hi
          have : i = 0 := by omega
          exact this ▸ ⟨e0, h0, hret0⟩
        · intro resp h
          injection h with h
          exact ⟨h ▸ h1, rfl, rfl⟩
        · intro e h
          simp at h
      · by_cases hret1 : isRetryableError e1 = true
        · rcases h2 : outcomes 2 with resp2 | e2
          · have hr : r =
                { result := .ok resp2, attempts := 3, successes := 1,
                  failures := 0, delays := [RETRY_DELAY_MS, RETRY_DELAY_MS] } := by
              simp [r, executeWithRetry, retryLoop, h0, h1, h2, hret0, hret1,
                MAX_RETRIES]
            rw [hr]
            refine ⟨by simp, by simp [MAX_RETRIES], rfl, ?_, ?_, ?_⟩
            · intro i hi
              simp at hi
              have : i = 0 ∨ i = 1 := by omega
              rcases this with h | h
              · exact h ▸ ⟨e0, h0, hret0⟩
              · exact h ▸ ⟨e1, h1, hret1⟩
            · intro resp h
              injection h with h
              exact ⟨h ▸ h2, rfl, rfl⟩
            · intro e h
              simp at h
          · have hr : r =
                { result := .error e2, attempts := 3, successes := 0,
                  failures := 1, delays := [RETRY_DELAY_MS, RETRY_DELAY_MS] } := by
              simp [r, executeWithRetry, retryLoop, h0, h1, h2, hret0, hret1,
                MAX_RETRIES]
            rw [hr]
            refine ⟨by simp, by simp [MAX_RETRIES], rfl, ?_, ?_, ?_⟩
            · intro i hi
              simp at hi
              have : i = 0 ∨ i = 1 := by omega
              rcases this with h | h
              · exact h ▸ ⟨e0, h0, hret0⟩
              · exact h ▸ ⟨e1, h1, hret1⟩
            · intro resp h
              simp at h
            · intro e h
              injection h with h
              exact ⟨h ▸ h2, rfl, rfl⟩
        · have hr : r =
            { result := .error e1, attempts := 2, successes := 0,
              failures := 1, delays := [RETRY_DELAY_MS] } := by
            simp [r, executeWithRetry, retryLoop, h0, h1, hret0, hret1,
              MAX_RETRIES]
          rw [hr]
          refine ⟨by simp, by simp [MAX_RETRIES], rfl, ?_, ?_, ?_⟩
          · intro i hi
            simp at hi
            have : i = 0 := by omega
            exact this ▸ ⟨e0, h0, hret0⟩
          · intro resp h
            simp at h
          · intro e h
            injection h with h
            exact ⟨h ▸ h1, rfl, rfl⟩
    · have hr : r =
          { result := .error e0, attempts := 1, successes := 0,
            failures := 1, delays := [] } := by
        simp [r, executeWithRetry, retryLoop, h0, hret0, MAX_RETRIES]
      rw [hr]
      refine ⟨by simp, by simp [MAX_RETRIES], rfl, fun i hi => by simp at hi, ?_, ?_⟩
      · intro resp h
        simp at h
      · intro e h
        injection h with h
        exact ⟨h ▸ h0, rfl, rfl⟩

/-- Concrete witness for `retry_policy`: two retryable spawn errors
followed by a success — 3 attempts, two 1 s delays, one `recordSuccess`,
no `recordFailure`, and the retried error classified retryable. -/
theorem retry_policy_witness :
    let outcomes : Nat → AttemptOutcome := fun i =>
      if i < 2 then .err "spawn claude ENOENT"
      else .ok { text := "hi", sessionId := "s", isError := false }
    (executeWithRetry outcomes).attempts = 3 ∧
    (executeWithRetry outcomes).delays = [1000, 1000] ∧
    (∃ e, outcomes 0 = .err e ∧ isRetryableError e = true) ∧
    (executeWithRetry outcomes).successes = 1 ∧
    (executeWithRetry outcomes).failures = 0 := by
  intro outcomes
  have h := retry_policy outcomes
  have hres : (executeWithRetry outcomes).result
      = .ok { text := "hi", sessionId := "s", isError := false } := by rfl
  have hatt : (executeWithRetry outcomes).attempts = 3 := by rfl
  refine ⟨hatt, ?_, ?_, ?_, ?_⟩
  · rw [h.2.2.1, hatt]; rfl
  · exact h.2.2.2.1 0 (by rw [hatt]; omega)
  · exact (h.2.2.2.2.1 _ hres).2.1
  · exact (h.2.2.2.2.1 _ hres).2.2

end ClaudeTutor

namespace ClaudeTutor

/-! ## Session state, requests and `chat()` (usage-limiter.ts lines 182-247) -/

-- type Subject = 'math' | 'science' | 'english' | 'korean';
inductive Subject
  | math
  | science
  | english
  | korean
deriving DecidableEq, Repr

/-- `interface QueuedRequest` (data part; the `resolve`/`reject`
completion handles are modelled by the broker transition system
`BrokerLts` above). -/
structure QueuedRequest where
  message : String
  sessionId : Option String
  subject : Option Subject
deriving DecidableEq, Repr

/-- The session-tracking fields of `ClaudeBridge`:
`this.currentSessionId` (nullable) and `this.currentSubject`. -/
structure SessionSt where
  currentSessionId : Option String
  currentSubject : Subject
deriving DecidableEq, Repr

-- field initializers: currentSessionId = null, currentSubject = 'math'
def SessionSt.initial : SessionSt :=
  { currentSessionId := none, currentSubject := .math }

/-- JavaScript falsiness of an optional string: `!s` is `true` for
`undefined`/`null` and for `""`. -/
def jsFalsy (o : Option String) : Bool :=
  match o with
  | none => true
  | some s => s = ""

/-- JavaScript `a || b` on an optional string `a`. -/
def jsOrStr (a : Option String) (b : String) : String :=
  match a with
  | some s => if s = "" then b else s
  | none => b

/-- The full mutable state of a `ClaudeBridge` instance that the claims
concern: the request queue, the session tracker and the circuit
breaker. -/
structure BridgeSt where
  queue : List QueuedRequest
  session : SessionSt
  circuitBreaker : CircuitBreaker
deriving DecidableEq, Repr

-- the degraded response text returned when the circuit is open
def DEGRADED_TEXT : String := "잠시 문제가 생겼어요. 조금 후에 다시 해볼까? 🙏"

/-- What one `chat()` call does synchronously: either it returns the
canned degraded response at once (circuit open), or it pushes a
`QueuedRequest` and triggers `processQueue()`. -/
inductive ChatOutcome
  | degraded (resp : ChatResponse)
  | enqueued (req : QueuedRequest)
deriving DecidableEq, Repr

/-- `ClaudeBridge.chat(message, sessionId?, subject?)`, synchronous part;
`now` is `Date.now()` at the `canExecute()` call. -/
def chat (now : Int) (message : String) (sessionId : Option String)
    (subject : Option Subject) (st : BridgeSt) : ChatOutcome × BridgeSt :=
  let ce := st.circuitBreaker.canExecute now
  if ce.1 = false then
    -- Circuit breaker check - reject immediately if circuit is open
    (.degraded
      { text := DEGRADED_TEXT,
        sessionId := jsOrStr sessionId (jsOrStr st.session.currentSessionId ""),
        isError := true },
     { st with circuitBreaker := ce.2 })
  else
    -- Default to math if no subject specified
    let effectiveSubject := subject.getD st.session.currentSubject
    let req : QueuedRequest :=
      { message := message, sessionId := sessionId,
        subject := some effectiveSubject }
    (.enqueued req,
     { st with queue := st.queue ++ [req], circuitBreaker := ce.2 })

/-- `canExecute()` returns `false` only on the Open branch, which leaves
the breaker unchanged. -/
theorem canExecute_false_no_change (now : Int) (cb : CircuitBreaker)
    (h : (cb.canExecute now).1 = false) : cb.canExecute now = (false, cb) := by
  unfold CircuitBreaker.canExecute at h ⊢
  cases hs : cb.state
  · rw [hs] at h
    simp at h
  · rw [hs] at h
    dsimp only at h ⊢
    by_cases hc : now - cb.lastFailureTime ≥ CIRCUIT_RESET_TIMEOUT_MS
    · rw [if_pos hc] at h
      simp at h
    · rw [if_neg hc]
  · rw [hs] at h
    simp at h

/-- **C4.** Whenever the circuit breaker's `canExecute()` answers `false`,
`chat()` returns the canned degraded response synchronously (it does not
throw): the response text is the canned message with `isError = true`,
and the bridge state is completely unchanged — nothing is enqueued, no
backend process is spawned, and no retry attempt is consumed. -/
theorem chat_short_circuit_when_open
    (now : Int) (message : String) (sessionId : Option String)
    (subject : Option Subject) (st : BridgeSt)
    (h : (st.circuitBreaker.canExecute now).1 = false) :
    chat now message sessionId subject st =
      (.degraded
        { text := DEGRADED_TEXT,
          sessionId := jsOrStr sessionId (jsOrStr st.session.currentSessionId ""),
          isError := true },
       st) := by
  have hce := canExecute_false_no_change now st.circuitBreaker h
  simp only [chat, hce]
  simp

/-- Concrete witness for `chat_short_circuit_when_open`: a breaker that
tripped Open at time 1000, queried at time 2000 (cooldown not elapsed). -/
theorem chat_short_circuit_when_open_witness :
    (let st : BridgeSt :=
      { queue := [],
        session := SessionSt.initial,
        circuitBreaker :=
          { state := .OPEN, failureCount := 3, lastFailureTime := 1000 } }
     ((st.circuitBreaker.canExecute 2000).1 = false) ∧
       chat 2000 "hi" none none st =
         (.degraded { text := DEGRADED_TEXT, sessionId := "", isError := true },
          st)) := by
  refine ⟨by decide, ?_⟩
  exact chat_short_circuit_when_open 2000 "hi" none none _ (by decide)

end ClaudeTutor

namespace ClaudeTutor

/-! ## Argument construction and session reset
(usage-limiter.ts lines 309-324, 413-434, 491-495) -/

-- const DISALLOWED_TOOLS = [...].join(',')
def DISALLOWED_TOOLS : String :=
  "Bash,Edit,Write,Read,Glob,Grep,Task,WebFetch,WebSearch,LS,MultiEdit,NotebookEdit,TodoWrite"

/-- `ClaudeBridge.buildArgs(isNewSession, subject)`.  The system prompt
assembled by `getSystemPrompt` (prompt files + memory context) is an
input here; `currentSessionId` is `this.currentSessionId` (the source
uses the non-null assertion `this.currentSessionId!` on the resume
branch, modelled by `Option.getD ""`). -/
def buildArgs (getSystemPrompt : Subject → String)
    (currentSessionId : Option String) (isNewSession : Bool)
    (subject : Subject) : List String :=
  let args := ["-p", "--output-format", "stream-json", "--verbose",
    "--model", "haiku"]
  if isNewSession then
    -- New session - include system prompt and tool restrictions
    args ++ ["--append-system-prompt", getSystemPrompt subject] ++
      ["--disallowedTools", DISALLOWED_TOOLS]
  else
    -- Resume existing session with specific session ID
    args ++ ["--resume", currentSessionId.getD ""]

/-- The session bookkeeping at the top of `executeQuery(request)`
(lines 311-324): decide whether the client wants a new session or the
subject changed, reset the tracked session accordingly, and compute
`isNewSession`.  Returns `(isNewSession, subject, updated state)`. -/
def sessionSetup (req : QueuedRequest) (st : SessionSt) :
    Bool × Subject × SessionSt :=
  let subject := req.subject.getD .math
  -- Client sends no sessionId = wants new session
  let clientWantsNewSession := jsFalsy req.sessionId
  -- OR different subject = reset session
  let subjectChanged :=
    match req.subject with
    | some s => decide (s ≠ st.currentSubject)
    | none => false
  let st1 :=
    if clientWantsNewSession || subjectChanged then
      { st with currentSubject := subject, currentSessionId := none }
    else st
  (st1.currentSessionId.isNone, subject, st1)

/-- `ClaudeBridge.resetSession()`. -/
def resetSession (st : SessionSt) : SessionSt :=
  { st with currentSessionId := none }

/-- **C9.** `resetSession()` clears the tracked session identifier
synchronously; the next dequeued request — whatever resume identifier it
carries — is then set up with `isNewSession = true`, and the argument
list `buildArgs` produces for a new session is exactly the base argument
list followed by the system prompt and the tool deny-list, with no
`--resume` directive. -/
theorem resetSession_next_request_is_new
    (st : SessionSt) (req : QueuedRequest)
    (getSystemPrompt : Subject → String) :
    (resetSession st).currentSessionId = none ∧
    (sessionSetup req (resetSession st)).1 = true ∧
    (∀ csid subject,
      buildArgs getSystemPrompt csid true subject =
        ["-p", "--output-format", "stream-json", "--verbose", "--model",
         "haiku", "--append-system-prompt", getSystemPrompt subject,
         "--disallowedTools", DISALLOWED_TOOLS]) := by
  refine ⟨rfl, ?_, fun csid subject => by simp [buildArgs]⟩
  unfold sessionSetup
  dsimp only
  split
  · rfl
  · simp [resetSession]

end ClaudeTutor

namespace ClaudeTutor

/-! ## Stream parser (usage-limiter.ts lines 436-489) and memory-marker
stripping (memory-manager.ts)

`parseOutput` splits the captured stdout on newlines, drops blank lines,
and tries to `JSON.parse` each remaining line, skipping lines that fail
to parse.  We model the decoded line stream directly: each line is
either an Init record (`type:'system', subtype:'init'`), an Assistant
record, a Result record, or `noise` (a line that failed to parse or had
another shape). -/

-- one element of an Assistant record's message.content array
structure ContentItem where
  ctype : String
  text : String
deriving DecidableEq, Repr

inductive StreamRec
  | init (sessionId : String)
  | assistant (content : List ContentItem)
  | res (result : String) (isError : Bool)
  | noise
deriving DecidableEq, Repr

/-- The accumulator of the `for (const line of lines)` loop:
`let text = ''` and `let parsedSessionId: string | null = null`. -/
structure ParseAcc where
  text : String
  parsedSessionId : Option String
deriving DecidableEq, Repr

/-- One iteration of the parse loop. -/
def parseStep (acc : ParseAcc) : StreamRec → ParseAcc
  | .init sid => { acc with parsedSessionId := some sid }
  | .assistant content =>
    if 0 < content.length then
      { acc with
          text := String.intercalate "\n"
            ((content.filter (fun c => c.ctype == "text")).map (fun c => c.text)) }
    else acc
  | .res r _ =>
    -- Use result text as fallback if assistant text is empty
    -- (the is_error flag is only logged)
    if acc.text = "" ∧ r ≠ "" then { acc with text := r } else acc
  | .noise => acc

/-- The parse loop over all decoded lines in order. -/
def parseRecords (recs : List StreamRec) : ParseAcc :=
  recs.foldl parseStep { text := "", parsedSessionId := none }

/-! ### `memoryManager.stripMemoryMarkers` / `extractMemoryFromResponse`

JavaScript regexes over the character list:
`/\[MEMORY:(\w+)=([^\]]+)\]/` and `/\[MEMORY_COMPACT:[\s\S]*?\]/`. -/

-- interface MemoryUpdate { key; value }
structure MemoryUpdate where
  key : String
  value : String
deriving DecidableEq, Repr

/-- JavaScript `\w`: `[A-Za-z0-9_]`. -/
def isWordChar (c : Char) : Bool := c.isAlphanum || c == '_'

/-- JavaScript `String.prototype.trim()` (whitespace at both ends). -/
def jsTrim (l : List Char) : List Char :=
  ((l.dropWhile Char.isWhitespace).reverse.dropWhile Char.isWhitespace).reverse

structure MemMarker where
  key : List Char
  value : List Char
  rest : List Char
deriving DecidableEq, Repr

/-- Match `\[MEMORY:(\w+)=([^\]]+)\]` at the head of `l`: the literal
`[MEMORY:`, a nonempty maximal run of word characters, `=`, a nonempty
maximal run of non-`]` characters, then `]`.  Returns the two capture
groups and the input after the `]`. -/
def matchMemoryMarker (l : List Char) : Option MemMarker :=
  if l.take 8 = "[MEMORY:".data then
    let l1 := l.drop 8
    let key := l1.takeWhile isWordChar
    let l2 := l1.dropWhile isWordChar
    if key.isEmpty then none
    else
      match l2 with
      | '=' :: l3 =>
        let v := l3.takeWhile (fun c => c ≠ ']')
        let l4 := l3.dropWhile (fun c => c ≠ ']')
        if v.isEmpty then none
        else
          match l4 with
          | ']' :: l5 => some { key := key, value := v, rest := l5 }
          | _ => none
      | _ => none
  else none

/-- Match `\[MEMORY_COMPACT:[\s\S]*?\]` at the head of `l` (lazy match:
everything up to the first `]`).  Returns the input after the `]`. -/
def matchCompactMarker (l : List Char) : Option (List Char) :=
  if l.take 16 = "[MEMORY_COMPACT:".data then
    let l1 := l.drop 16
    match l1.dropWhile (fun c => c ≠ ']') with
    | ']' :: l2 => some l2
    | _ => none
  else none

/-- The `\n?` at the end of the two replacement patterns. -/
def dropNl : List Char → List Char
  | '\n' :: t => t
  | l => l

/-- `text.replace(/\[MEMORY:\w+=[^\]]+\]\n?/g, '')`: left-to-right scan
replacing every non-overlapping match by nothing.  `fuel` bounds the
recursion (each step consumes at least one character, so
`l.length + 1` is always enough). -/
def stripMemPass : Nat → List Char → List Char
  | 0, l => l
  | _ + 1, [] => []
  | fuel + 1, c :: rest =>
    match matchMemoryMarker (c :: rest) with
    | some m => stripMemPass fuel (dropNl m.rest)
    | none => c :: stripMemPass fuel rest

/-- `text.replace(/\[MEMORY_COMPACT:[\s\S]*?\]\n?/g, '')`. -/
def stripCompactPass : Nat → List Char → List Char
  | 0, l => l
  | _ + 1, [] => []
  | fuel + 1, c :: rest =>
    match matchCompactMarker (c :: rest) with
    | some rest2 => stripCompactPass fuel (dropNl rest2)
    | none => c :: stripCompactPass fuel rest

/-- `memoryManager.stripMemoryMarkers(text)`: the two global replaces
followed by `.trim()`. -/
def stripMemoryMarkers (s : String) : String :=
  let l1 := stripMemPass (s.data.length + 1) s.data
  let l2 := stripCompactPass (l1.length + 1) l1
  ⟨jsTrim l2⟩

/-- `memoryManager.extractMemoryFromResponse(text)`: every
non-overlapping `[MEMORY:key=value]` match in order, values trimmed. -/
def extractMemPass : Nat → List Char → List MemoryUpdate
  | 0, _ => []
  | _ + 1, [] => []
  | fuel + 1, c :: rest =>
    match matchMemoryMarker (c :: rest) with
    | some m =>
      { key := ⟨m.key⟩, value := ⟨jsTrim m.value⟩ } :: extractMemPass fuel m.rest
    | none => extractMemPass fuel rest

def extractMemoryFromResponse (s : String) : List MemoryUpdate :=
  extractMemPass (s.data.length + 1) s.data

/-- The value returned by `ClaudeBridge.parseOutput(stdout)`. -/
structure ParsedOutput where
  text : String
  parsedSessionId : Option String
  memoryUpdates : List MemoryUpdate
deriving DecidableEq, Repr

/-- `ClaudeBridge.parseOutput(stdout)` on the decoded line stream: the
fold over the lines, then memory-marker extraction and stripping of the
accumulated text. -/
def parseOutput (recs : List StreamRec) : ParsedOutput :=
  let acc := parseRecords recs
  let memoryUpdates := extractMemoryFromResponse acc.text
  let cleanText := stripMemoryMarkers acc.text
  { text := cleanText, parsedSessionId := acc.parsedSessionId,
    memoryUpdates := memoryUpdates }

/-- The session id named by the spec: the one of the most recent
(last) Init record of the stream, if any. -/
def lastInit : List StreamRec → Option String
  | [] => none
  | .init sid :: rest => some ((lastInit rest).getD sid)
  | _ :: rest => lastInit rest

theorem parseStep_assistant (acc : ParseAcc) (c : List ContentItem) :
    parseStep acc (.assistant c) =
      if 0 < c.length then
        { acc with
            text := String.intercalate "\n"
              ((c.filter (fun x => x.ctype == "text")).map (fun x => x.text)) }
      else acc := rfl

theorem parseStep_assistant_sessionId (acc : ParseAcc) (c : List ContentItem) :
    (parseStep acc (.assistant c)).parsedSessionId = acc.parsedSessionId := by
  rw [parseStep_assistant]
  split <;> rfl

theorem parseStep_res (acc : ParseAcc) (r : String) (e : Bool) :
    parseStep acc (.res r e) =
      if acc.text = "" ∧ r ≠ "" then { acc with text := r } else acc := rfl

theorem parseStep_res_sessionId (acc : ParseAcc) (r : String) (e : Bool) :
    (parseStep acc (.res r e)).parsedSessionId = acc.parsedSessionId := by
  rw [parseStep_res]
  split <;> rfl

theorem foldl_parseStep_sessionId (recs : List StreamRec) (acc : ParseAcc) :
    (recs.foldl parseStep acc).parsedSessionId =
      match lastInit recs with
      | some s => some s
      | none => acc.parsedSessionId := by
  induction recs generalizing acc with
  | nil => rfl
  | cons r t ih =>
    cases r with
    | init sid =>
      rw [List.foldl_cons, ih]
      show _ = (match lastInit (.init sid :: t) with
        | some s => some s
        | none => acc.parsedSessionId)
      cases h : lastInit t with
      | none => simp [lastInit, h, parseStep]
      | some s => simp [lastInit, h]
    | assistant content =>
      rw [List.foldl_cons, ih, parseStep_assistant_sessionId]
      rfl
    | res r e =>
      rw [List.foldl_cons, ih, parseStep_res_sessionId]
      rfl
    | noise =>
      rw [List.foldl_cons, ih]
      rfl

/-- **C7.** `parseOutput` is a fold over the decoded stdout lines in
order: (i) on the concrete stream Init(`"s1"`), Assistant(`"hello"`),
Result(`is_error = false`) it yields text `"hello"` and session id
`"s1"`; (ii) the returned session id is the one of the most recent Init
record; (iii) an Assistant record with non-empty content replaces the
accumulated text with its text-type items joined by newlines (it does
not append); (iv) a Result record's result string is used only when the
accumulated text is empty (and itself non-empty). -/
theorem parse_output_is_fold :
    (parseOutput [.init "s1", .assistant [{ ctype := "text", text := "hello" }],
        .res "hello" false] =
      { text := "hello", parsedSessionId := some "s1", memoryUpdates := [] }) ∧
    (∀ recs, (parseRecords recs).parsedSessionId = lastInit recs) ∧
    (∀ recs content, 0 < content.length →
      (parseRecords (recs ++ [.assistant content])).text =
        String.intercalate "\n"
          ((content.filter (fun c => c.ctype == "text")).map (fun c => c.text))) ∧
    (∀ recs r e,
      (parseRecords (recs ++ [.res r e])).text =
        if (parseRecords recs).text = "" ∧ r ≠ "" then r
        else (parseRecords recs).text) := by
  refine ⟨by decide, ?_, ?_, ?_⟩
  · intro recs
    rw [parseRecords, foldl_parseStep_sessionId]
    cases h : lastInit recs <;> rfl
  · intro recs content h
    rw [parseRecords, List.foldl_append]
    show (parseStep (parseRecords recs) (.assistant content)).text = _
    simp [parseStep, h]
  · intro recs r e
    rw [parseRecords, List.foldl_append]
    show (parseStep (parseRecords recs) (.res r e)).text = _
    rw [parseStep_res]
    by_cases hP : (parseRecords recs).text = "" ∧ r ≠ ""
    · rw [if_pos hP, if_pos hP]
    · rw [if_neg hP, if_neg hP]

/-- Concrete witness for `parse_output_is_fold`: instantiates the
Assistant-replacement clause — two Assistant records in sequence, the
second (two text items) replacing the first. -/
theorem parse_output_is_fold_witness :
    (0 < ([{ ctype := "text", text := "b" }, { ctype := "text", text := "c" }] :
        List ContentItem).length) ∧
    (parseRecords ([.assistant [{ ctype := "text", text := "a" }]] ++
        [.assistant [{ ctype := "text", text := "b" },
          { ctype := "text", text := "c" }]])).text = "b\nc" := by
  refine ⟨by decide, ?_⟩
  rw [parse_output_is_fold.2.2.1 [.assistant [{ ctype := "text", text := "a" }]]
    [{ ctype := "text", text := "b" }, { ctype := "text", text := "c" }]
    (by decide)]
  decide

end ClaudeTutor

namespace ClaudeTutor

/-! ## The `close` handler of `executeQuery`
(usage-limiter.ts lines 358-396) -/

/-- The `child.on('close', (code) => ...)` handler: `killed` is the local
flag set by the timeout timer, `code` the exit code, `records` the
decoded NDJSON lines of the captured stdout, `st` the session tracker.
Returns either the rejection error or the resolved `ChatResponse`
together with the updated session state.  (The asynchronous
`memoryManager.applyMemoryUpdates` / `extractAndApplyCompaction` calls
are fire-and-forget and do not affect the settled value.) -/
def closeHandler (killed : Bool) (code : Int) (stderr : String)
    (records : List StreamRec) (st : SessionSt) :
    Except String (ChatResponse × SessionSt) :=
  if killed then .error "Request timed out"
  else if code ≠ 0 then .error (s!"CLI exited with code {code}: {stderr}")
  else
    let parsed := parseOutput records
    let st1 :=
      match parsed.parsedSessionId with
      | some sid => if sid = "" then st else { st with currentSessionId := some sid }
      | none => st
    .ok ({ text := parsed.text,
           sessionId := jsOrStr st1.currentSessionId "",
           isError := false }, st1)

/-- **C8.** A Result record's `is_error` flag never fails the call:
(i) the parse step treats `is_error = true` and `is_error = false`
identically (the flag is only logged); (ii) whenever the process exits
with code 0 and was not killed, the close handler resolves — with the
parsed text (possibly empty) and `isError = false` — regardless of the
decoded records, so it never rejects on account of the flag. -/
theorem result_error_flag_is_log_only :
    (∀ acc r, parseStep acc (.res r true) = parseStep acc (.res r false)) ∧
    (∀ stderr records st, ∃ resp st1,
      closeHandler false 0 stderr records st = .ok (resp, st1) ∧
        resp.isError = false ∧ resp.text = (parseOutput records).text) := by
  refine ⟨fun acc r => rfl, fun stderr records st => ?_⟩
  exact ⟨_, _, rfl, rfl, rfl⟩

/-- **C10.** A resolved `ChatResponse` has `isError = true` exactly when
it is the circuit-open degraded short-circuit: (i) every degraded
response returned by `chat()` has `isError = true`; (ii) every response
resolved by a completed backend invocation (the close handler) has
`isError = false` — even when a Result record had `is_error = true` —
and its `sessionId` is the tracked session id after the parse-update,
or `""` when none was ever parsed. -/
theorem isError_iff_degraded :
    (∀ now message sessionId subject st resp st1,
      chat now message sessionId subject st = (.degraded resp, st1) →
        resp.isError = true) ∧
    (∀ killed code stderr records st resp st1,
      closeHandler killed code stderr records st = .ok (resp, st1) →
        resp.isError = false ∧ resp.sessionId = jsOrStr st1.currentSessionId "") := by
  constructor
  · intro now message sessionId subject st resp st1 h
    unfold chat at h
    dsimp only at h
    split at h
    · injection h with h1 h2
      injection h1 with h1
      rw [← h1]
    · injection h with h1 h2
      exact absurd h1 (by simp)
  · intro killed code stderr records st resp st1 h
    unfold closeHandler at h
    split at h
    · exact absurd h (by simp)
    · split at h
      · exact absurd h (by simp)
      · dsimp only at h
        injection h with hpair
        injection hpair with hresp hst
        subst hresp
        subst hst
        exact ⟨rfl, rfl⟩

/-- Concrete witness for `isError_iff_degraded`: the degraded response of
a `chat()` call against an Open breaker, and the resolved response of a
clean exit whose only Result record carries `is_error = true`. -/
theorem isError_iff_degraded_witness :
    (chat 2000 "hi" none none
        { queue := [], session := SessionSt.initial,
          circuitBreaker :=
            { state := .OPEN, failureCount := 3, lastFailureTime := 1000 } } =
      (.degraded { text := DEGRADED_TEXT, sessionId := "", isError := true },
        { queue := [], session := SessionSt.initial,
          circuitBreaker :=
            { state := .OPEN, failureCount := 3, lastFailureTime := 1000 } })) ∧
    ({ text := DEGRADED_TEXT, sessionId := "", isError := true } :
        ChatResponse).isError = true ∧
    (closeHandler false 0 "" [.init "s9", .res "oops" true] SessionSt.initial =
      .ok ({ text := "oops", sessionId := "s9", isError := false },
        { currentSessionId := some "s9", currentSubject := .math })) ∧
    (false = false ∧
      ("s9" : String) =
        jsOrStr ({ currentSessionId := some "s9", currentSubject := .math } :
          SessionSt).currentSessionId "") := by
  have hchat : chat 2000 "hi" none none
      { queue := [], session := SessionSt.initial,
        circuitBreaker :=
          { state := .OPEN, failureCount := 3, lastFailureTime := 1000 } } =
      (.degraded { text := DEGRADED_TEXT, sessionId := "", isError := true },
        { queue := [], session := SessionSt.initial,
          circuitBreaker :=
            { state := .OPEN, failureCount := 3, lastFailureTime := 1000 } }) := by
    decide
  have hclose : closeHandler false 0 "" [.init "s9", .res "oops" true]
      SessionSt.initial =
      .ok ({ text := "oops", sessionId := "s9", isError := false },
        { currentSessionId := some "s9", currentSubject := .math }) := by
    rfl
  refine ⟨hchat, (isError_iff_degraded.1 _ _ _ _ _ _ _ hchat), hclose, ?_⟩
  have h := isError_iff_degraded.2 _ _ _ _ _ _ _ hclose
  exact ⟨h.1 ▸ rfl, h.2⟩

end ClaudeTutor

namespace ClaudeTutor

/-! ## Timeout escalation (usage-limiter.ts lines 336-364)

`executeQuery` arms a 60 s timer.  On expiry it sets the local `killed`
flag, calls `child.kill('SIGTERM')` and arms a 5 s grace timer whose
callback runs `if (!child.killed) child.kill('SIGKILL')`.  Note the two
distinct `killed`s: the local variable, and the Node.js
`ChildProcess.killed` property — the latter is set to true as soon as a
signal from `child.kill()` is *delivered*; it does not indicate that the
process has exited.  The `close` handler clears the outer timer and,
when the local flag is set, rejects with `'Request timed out'`. -/

-- const TIMEOUT_MS = 60000; const KILL_GRACE_MS = 5000;
def TIMEOUT_MS : Nat := 60000
def KILL_GRACE_MS : Nat := 5000

inductive SettleKind
  | resolved
  | rejectedTimeout
deriving DecidableEq, Repr

/-- Observable timing of one invocation: when each signal is sent (if
ever) and whether/how the promise settles. -/
structure QueryTiming where
  sigtermAt : Option Nat
  sigkillAt : Option Nat
  settled : Option SettleKind
deriving DecidableEq, Repr

/-- The path where the timeout timer fires (the process did not exit
before `TIMEOUT_MS`).  The SIGTERM is delivered to the live process, so
the `child.killed` property is true from that moment on; when the grace
timer fires, `!child.killed` is false and SIGKILL is not sent. -/
def timerPath (exitsOnOwnAt : Option Nat) (diesOnSigterm : Bool) :
    QueryTiming :=
  -- child.kill('SIGTERM') on a live process: delivery succeeds
  let childKilledProp := true
  -- setTimeout(() => { if (!child.killed) child.kill('SIGKILL') }, KILL_GRACE_MS)
  let sigkillAt : Option Nat :=
    if childKilledProp then none else some (TIMEOUT_MS + KILL_GRACE_MS)
  -- 'close' fires when the process exits (from the SIGTERM or on its own);
  -- the local killed flag makes the handler reject with 'Request timed out'
  let closesAt : Option Nat :=
    if diesOnSigterm then some TIMEOUT_MS else exitsOnOwnAt
  { sigtermAt := some TIMEOUT_MS,
    sigkillAt := sigkillAt,
    settled := closesAt.map (fun _ => .rejectedTimeout) }

/-- Timing model of `executeQuery`'s timeout handling.  The process
behaviour is a parameter: `exitsOnOwnAt` is when the process would exit
of its own accord (`none` = never), `diesOnSigterm` whether it
terminates on receiving SIGTERM.  Times are ms from spawn. -/
def executeQueryTiming (exitsOnOwnAt : Option Nat) (diesOnSigterm : Bool) :
    QueryTiming :=
  match exitsOnOwnAt with
  | some t =>
    if t < TIMEOUT_MS then
      -- 'close' fires first: clearTimeout(timeout), no timer, no signal
      { sigtermAt := none, sigkillAt := none, settled := some .resolved }
    else
      timerPath (some t) diesOnSigterm
  | none => timerPath none diesOnSigterm

/-- **C6 (code bug).**  The claim (and the spec) say: SIGTERM at the
60 s deadline, SIGKILL 5 s later if the process still has not exited,
the invocation fails with a `'Request timed out'` error classified
retryable, and no signal if the process exits before the deadline.  On
the code: (i) SIGTERM at the deadline and no-signal-on-timely-exit hold;
but (ii) for a process that ignores SIGTERM and never exits, SIGKILL is
never sent — the grace-timer guard `!child.killed` is false because
`child.killed` was already set by the delivered SIGTERM — and the
invocation never settles (the worker hangs); and (iii) even when the
process does die and the handler rejects with `'Request timed out'`,
`isRetryableError` classifies that message as NOT retryable, because
`'request timed out'` does not contain the substring `'timeout'`. -/
theorem timeout_escalation_code_bug :
    executeQueryTiming none false =
      { sigtermAt := some 60000, sigkillAt := none, settled := none } ∧
    (∀ d, executeQueryTiming (some 1000) d =
      { sigtermAt := none, sigkillAt := none, settled := some .resolved }) ∧
    executeQueryTiming none true =
      { sigtermAt := some 60000, sigkillAt := none,
        settled := some .rejectedTimeout } ∧
    isRetryableError "Request timed out" = false := by
  refine ⟨rfl, fun d => ?_, rfl, by decide⟩
  cases d <;> rfl

end ClaudeTutor
